import Mathlib

/-!
Shallow embedding of the audio pipeline in `src/utils/audio-utils.ts`
(`validateAudioData`, `normalizeAudio`, `upsampleAudio`, `createAudioBlob`)
together with theorems checking the claims of the specification about it.

Modelling conventions:
* JS `number` samples are modelled as real numbers (`ℝ`); sample rates are
  modelled as rationals (`ℚ`), which covers every rate the claims mention.
* An `ArrayBuffer`/`DataView` is modelled as a total map from byte offsets to
  byte values (`ByteArr`), zero-initialised like a fresh `ArrayBuffer`.
* Functions that `throw` are modelled with `Except String`.
* The diagnostics collector (`logger` / `ttsDebugger`) is modelled by a
  parameter `diag`; the logger implemented in `src/utils/logger.ts` never
  throws, which is the constant-`ok` instance `loggerDiag`.
-/

namespace AudioUtils

/-- Byte store of an `ArrayBuffer` viewed through a `DataView`: a total map
from byte offset to stored byte. -/
def ByteArr : Type := ℕ → ℕ

/-- Model of `DataView.prototype.setUint8`: stores the low 8 bits at `offset`. -/
def setUint8 (view : ByteArr) (offset value : ℕ) : ByteArr :=
  fun i => if i = offset then value % 256 else view i

/-- Model of `DataView.prototype.setUint16` (little endian). -/
def setUint16 (view : ByteArr) (offset value : ℕ) : ByteArr :=
  setUint8 (setUint8 view offset value) (offset + 1) (value / 256)

/-- Model of `DataView.prototype.setUint32` (little endian). -/
def setUint32 (view : ByteArr) (offset value : ℕ) : ByteArr :=
  setUint8 (setUint8 (setUint8 (setUint8 view offset value)
    (offset + 1) (value / 256)) (offset + 2) (value / 65536))
    (offset + 3) (value / 16777216)

/-- Model of `DataView.prototype.setInt16` (little endian, twos-complement). -/
def setInt16 (view : ByteArr) (offset : ℕ) (value : ℤ) : ByteArr :=
  setUint16 view offset (value % 65536).toNat

/-- Model of `DataView.prototype.getUint8`. -/
def getUint8 (view : ByteArr) (offset : ℕ) : ℕ :=
  view offset % 256

/-- Model of `DataView.prototype.getUint16` (little endian). -/
def getUint16 (view : ByteArr) (offset : ℕ) : ℕ :=
  getUint8 view offset + 256 * getUint8 view (offset + 1)

/-- Model of `DataView.prototype.getUint32` (little endian). -/
def getUint32 (view : ByteArr) (offset : ℕ) : ℕ :=
  getUint8 view offset + 256 * getUint8 view (offset + 1) +
    65536 * getUint8 view (offset + 2) + 16777216 * getUint8 view (offset + 3)

/-- Model of the helper `writeString` in audio-utils: writes the character
codes of a string (given here as its list of ASCII codes) at consecutive
offsets. -/
def writeString (view : ByteArr) (offset : ℕ) : List ℕ → ByteArr
  | [] => view
  | c :: cs => writeString (setUint8 view offset c) (offset + 1) cs

/-- Statistics gathered by `validateAudioData` in its single pass: running
minimum and maximum (`Infinity` starting values modelled by `none`), the
count of exact zeros, and the count of samples with `|sample| ≥ 1.0`. -/
structure AudioStats where
  minV : Option ℝ
  maxV : Option ℝ
  zeros : ℕ
  clipped : ℕ

/-- One loop iteration of `validateAudioData` (lines 19-29 of audio-utils). -/
noncomputable def statsStep (s : AudioStats) (sample : ℝ) : AudioStats :=
  { minV := some (match s.minV with
      | none => sample
      | some m => if sample < m then sample else m)
    maxV := some (match s.maxV with
      | none => sample
      | some m => if m < sample then sample else m)
    zeros := s.zeros + (if sample = 0 then 1 else 0)
    clipped := s.clipped + (if 1 ≤ |sample| then 1 else 0) }

/-- The statistics `validateAudioData` computes over a signal. -/
noncomputable def statsOf (audioData : List ℝ) : AudioStats :=
  audioData.foldl statsStep ⟨none, none, 0, 0⟩

/-- A diagnostics collector: receives a stage label and the computed
statistics, and either succeeds or throws.  The logger implemented in the
repository never throws (see `loggerDiag`); the parameter lets the theorems
speak about what happens when the collector does throw. -/
def Diag : Type := String → AudioStats → Except String Unit

/-- Model of `validateAudioData`: computes the statistics and hands them to
the diagnostics collector. -/
noncomputable def validateAudioData (diag : Diag) (audioData : List ℝ)
    (stage : String) : Except String Unit :=
  diag stage (statsOf audioData)

/-- The diagnostics collector actually installed in the repository:
`Logger.log` (src/utils/logger.ts) returns normally on every input. -/
def loggerDiag : Diag := fun _ _ => Except.ok ()

/-- A diagnostics collector that always throws, for exercising the failure
path of the claims about diagnostics errors. -/
def diagFail : Diag := fun _ _ => Except.error "diagnostics failure"

/-- RMS of a signal, as computed by lines 69-73 of `normalizeAudio`:
`sqrt(sumSquares / length)`. -/
noncomputable def rmsOf (audioData : List ℝ) : ℝ :=
  Real.sqrt ((audioData.map fun x => x * x).sum / audioData.length)

/-- Model of `normalizeAudio` (audio-utils lines 55-101).  The initial
`logger.debug` call never throws and is elided; the two `validateAudioData`
calls go through the `diag` parameter.  `new Float32Array(audioData)` is a
copy with the same sample values, so the silent branch returns `audioData`. -/
noncomputable def normalizeAudio (diag : Diag) (audioData : List ℝ)
    (targetRMS : ℝ := 3 / 20) : Except String (List ℝ) :=
  match validateAudioData diag audioData "pre-normalization" with
  | Except.error e => Except.error e
  | Except.ok _ =>
    if audioData.length = 0 then
      Except.error "Cannot normalize empty audio data"
    else
      let rms := rmsOf audioData
      if rms = 0 then Except.ok audioData
      else
        let scaleFactor := targetRMS / rms
        let normalizedAudio :=
          audioData.map fun x => Real.tanh (x * scaleFactor * (9 / 10))
        match validateAudioData diag normalizedAudio "post-normalization" with
        | Except.error e => Except.error e
        | Except.ok _ => Except.ok normalizedAudio

/-- Model of the JS element access `audioData[j] || 0` used by the
interpolation loop: out-of-range accesses give `undefined`, which `|| 0`
turns into `0`. -/
def getS (audioData : List ℝ) (j : ℤ) : ℝ :=
  if 0 ≤ j ∧ j < (audioData.length : ℤ) then audioData.getD j.toNat 0 else 0

/-- The Catmull-Rom cubic interpolation kernel (audio-utils lines 139-147). -/
noncomputable def catmullRom (y0 y1 y2 y3 : ℝ) (fraction : ℚ) : ℝ :=
  let a0 := -(1 / 2) * y0 + 3 / 2 * y1 - 3 / 2 * y2 + 1 / 2 * y3
  let a1 := y0 - 5 / 2 * y1 + 2 * y2 - 1 / 2 * y3
  let a2 := -(1 / 2) * y0 + 1 / 2 * y2
  let a3 := y1
  let f : ℝ := (fraction : ℝ)
  a0 * f * f * f + a1 * f * f + a2 * f + a3

/-- One output sample of `upsampleAudio` (audio-utils lines 127-148). -/
noncomputable def upsampleAt (audioData : List ℝ) ( ratio : ℚ) (i : ℕ) : ℝ :=
  let sourceIndex : ℚ := (i : ℚ) / ratio
  let index : ℤ := ⌊sourceIndex⌋
  let fraction : ℚ := sourceIndex - index
  let y0 := getS audioData (max 0 (index - 1))
  let y1 := getS audioData index
  let y2 := getS audioData (min (index + 1) ((audioData.length : ℤ) - 1))
  let y3 := getS audioData (min (index + 2) ((audioData.length : ℤ) - 1))
  catmullRom y0 y1 y2 y3 fraction

/-- Model of `upsampleAudio` (audio-utils lines 107-161).  The
`ttsDebugger.log` bookkeeping calls never throw and are elided; the two
`validateAudioData` calls go through `diag`.  `Math.floor(length * ratio)`
is the integer floor; the claims only use positive rates, for which it is
nonnegative (a negative ratio would make `new Float32Array` throw in JS). -/
noncomputable def upsampleAudio (diag : Diag) (audioData : List ℝ)
    (inputSampleRate outputSampleRate : ℚ) : Except String (List ℝ) :=
  match validateAudioData diag audioData "pre-upsampling" with
  | Except.error e => Except.error e
  | Except.ok _ =>
    if audioData.length = 0 then
      Except.error "Cannot upsample empty audio data"
    else
      let ratio := outputSampleRate / inputSampleRate
      let outputLength := (⌊(audioData.length : ℚ) * ratio⌋).toNat
      let upsampledAudio := (List.range outputLength).map (upsampleAt audioData ratio)
      match validateAudioData diag upsampledAudio "post-upsampling" with
      | Except.error e => Except.error e
      | Except.ok _ => Except.ok upsampledAudio

/-- The 44-byte WAV header written by `createAudioBlob` (lines 198-215) for a
payload of `length` 16-bit samples, on top of the zero-initialised
`ArrayBuffer`. -/
def wavHeader (length : ℕ) : ByteArr :=
  let view : ByteArr := fun _ => 0
  let view := writeString view 0 [82, 73, 70, 70]
  let view := setUint32 view 4 (36 + length * 2)
  let view := writeString view 8 [87, 65, 86, 69]
  let view := writeString view 12 [102, 109, 116, 32]
  let view := setUint32 view 16 16
  let view := setUint16 view 20 1
  let view := setUint16 view 22 1
  let view := setUint32 view 24 48000
  let view := setUint32 view 28 (48000 * 2)
  let view := setUint16 view 32 2
  let view := setUint16 view 34 16
  let view := writeString view 36 [100, 97, 116, 97]
  setUint32 view 40 (length * 2)

/-- ASCII codes of the marker "RIFF". -/
def riffBytes : List ℕ := [82, 73, 70, 70]

/-- ASCII codes of the marker "WAVE". -/
def waveBytes : List ℕ := [87, 65, 86, 69]

/-- ASCII codes of the marker "fmt " (with trailing space). -/
def fmtBytes : List ℕ := [102, 109, 116, 32]

/-- ASCII codes of the marker "data". -/
def dataBytes : List ℕ := [100, 97, 116, 97]

/-- The `headerValidation` record read back by `createAudioBlob`
(lines 218-227): three markers and five numeric fields. -/
structure HeaderValidation where
  riffMarker : List ℕ
  fileSize : ℕ
  waveMarker : List ℕ
  fmtMarker : List ℕ
  audioFormat : ℕ
  numChannels : ℕ
  sampleRate : ℕ
  bitsPerSample : ℕ

/-- Reads the `headerValidation` record from the buffer exactly as
lines 218-227 do. -/
def headerValidation (view : ByteArr) : HeaderValidation :=
  { riffMarker := [getUint8 view 0, getUint8 view 1, getUint8 view 2, getUint8 view 3]
    fileSize := getUint32 view 4
    waveMarker := [getUint8 view 8, getUint8 view 9, getUint8 view 10, getUint8 view 11]
    fmtMarker := [getUint8 view 12, getUint8 view 13, getUint8 view 14, getUint8 view 15]
    audioFormat := getUint16 view 20
    numChannels := getUint16 view 22
    sampleRate := getUint32 view 24
    bitsPerSample := getUint16 view 34 }

/-- The condition under which `createAudioBlob` throws
"Invalid WAV header construction" (line 231): only the RIFF and WAVE
markers are compared. -/
def wavHeaderCheckFails (view : ByteArr) : Prop :=
  (headerValidation view).riffMarker ≠ riffBytes ∨
    (headerValidation view).waveMarker ≠ waveBytes

instance (view : ByteArr) : Decidable (wavHeaderCheckFails view) := by
  unfold wavHeaderCheckFails
  infer_instance

/-- Spec-side header check, following the words of the spec, for comparison
with `wavHeaderCheckFails` from the code: the spec requires the encoder to re-read
back the four ASCII markers (`RIFF`, `WAVE`, `fmt `, `data`) and the numeric
header fields and to treat a mismatch of any of them as fatal. -/
def specHeaderMismatch (sampleCount : ℕ) (view : ByteArr) : Prop :=
  (headerValidation view).riffMarker ≠ riffBytes ∨
    (headerValidation view).waveMarker ≠ waveBytes ∨
    (headerValidation view).fmtMarker ≠ fmtBytes ∨
    [getUint8 view 36, getUint8 view 37, getUint8 view 38, getUint8 view 39] ≠ dataBytes ∨
    (headerValidation view).fileSize ≠ 36 + sampleCount * 2 ∨
    (headerValidation view).audioFormat ≠ 1 ∨
    (headerValidation view).numChannels ≠ 1 ∨
    (headerValidation view).sampleRate ≠ 48000 ∨
    (headerValidation view).bitsPerSample ≠ 16

instance (sampleCount : ℕ) (view : ByteArr) :
    Decidable (specHeaderMismatch sampleCount view) := by
  unfold specHeaderMismatch
  infer_instance

/-- The dither for sample `i` (lines 245-247): two fresh `Uint32` random
values, combined into a triangular dither in `(-0.5, 0.5]`.  The random
source `crypto.getRandomValues` is modelled by the oracle `rand`. -/
noncomputable def ditherOf (rand : ℕ → ℕ × ℕ) (i : ℕ) : ℝ :=
  (((rand i).1 : ℝ) / 4294967295 - ((rand i).2 : ℝ) / 4294967295) * (1 / 2)

/-- The 16-bit PCM value of one sample (lines 240-251): clamp to `[-1, 1]`,
scale by `0x7FFF`, add dither, `Math.round` (which is `⌊x + 1/2⌋`), and clamp
to the 16-bit range. -/
noncomputable def pcm16 (sample dither : ℝ) : ℤ :=
  let clampedSample := max (-1) (min 1 sample)
  let scaled := clampedSample * 32767
  let dithered := ⌊scaled + dither + 1 / 2⌋
  max (-32768) (min 32767 dithered)

/-- The PCM conversion loop (lines 237-254): writes sample `i` as a 16-bit
little-endian integer at offset `44 + 2 * i`. -/
noncomputable def pcmWrite (view : ByteArr) (rand : ℕ → ℕ × ℕ)
    (samples : List ℝ) : ByteArr :=
  (List.range samples.length).foldl
    (fun v i => setInt16 v (44 + 2 * i) (pcm16 (samples.getD i 0) (ditherOf rand i))) view

/-- The result of `createAudioBlob`: a `Blob` is its byte size plus its
bytes. -/
structure WavBuffer where
  size : ℕ
  bytes : ByteArr

/-- Number of 16-bit samples in the WAV payload produced for an input of
`n` samples at input rate `rate`: the length of the upsampled signal,
`Math.floor(n * (48000 / rate))`. -/
def wavDataLen (n : ℕ) (rate : ℚ) : ℕ :=
  (⌊(n : ℚ) * (48000 / rate)⌋).toNat

/-- Model of `createAudioBlob` (audio-utils lines 166-274): guard clauses,
normalize, upsample to 48 kHz, write the WAV header, re-read and check it,
then write the PCM payload.  The surrounding `try`/`catch` rethrows the
error unchanged and needs no modelling. -/
noncomputable def createAudioBlob (diag : Diag) (rand : ℕ → ℕ × ℕ)
    (audioData : List ℝ) (sampleRate : ℚ) : Except String WavBuffer :=
  if audioData.length = 0 then
    Except.error "Cannot create blob from empty audio data"
  else if sampleRate ≤ 0 then
    Except.error "Invalid sample rate for audio blob creation"
  else
    match normalizeAudio diag audioData with
    | Except.error e => Except.error e
    | Except.ok normalizedAudio =>
      match upsampleAudio diag normalizedAudio sampleRate 48000 with
      | Except.error e => Except.error e
      | Except.ok upsampledAudio =>
        let length := upsampledAudio.length
        let view := wavHeader length
        if wavHeaderCheckFails view then
          Except.error "Invalid WAV header construction"
        else
          Except.ok ⟨44 + length * 2, pcmWrite view rand upsampledAudio⟩

/-- The all-zeros random oracle, used to instantiate theorems at concrete
inputs. -/
def zrand : ℕ → ℕ × ℕ := fun _ => (0, 0)

/-- A correctly written header for zero samples whose "data" marker byte at
offset 36 has been replaced by the code of "X" (88): the RIFF and WAVE markers and all
numeric fields are still intact. -/
def corruptDataView : ByteArr := setUint8 (wavHeader 0) 36 88

/-! ### Helper lemmas about the written WAV header -/

lemma wavHeader_riffMarker (L : ℕ) :
    (headerValidation (wavHeader L)).riffMarker = riffBytes := by
  simp [wavHeader, headerValidation, riffBytes, writeString, setUint32, setUint16,
    setUint8, getUint8]

lemma wavHeader_waveMarker (L : ℕ) :
    (headerValidation (wavHeader L)).waveMarker = waveBytes := by
  simp [wavHeader, headerValidation, waveBytes, writeString, setUint32, setUint16,
    setUint8, getUint8]

lemma wavHeader_check_ok (L : ℕ) : ¬ wavHeaderCheckFails (wavHeader L) := by
  rw [wavHeaderCheckFails, wavHeader_riffMarker, wavHeader_waveMarker]
  simp

lemma wavHeader_fileSize (L : ℕ) :
    getUint32 (wavHeader L) 4 = (36 + L * 2) % 4294967296 := by
  simp only [wavHeader, writeString, setUint32, setUint16, setUint8, getUint32, getUint8]
  norm_num
  omega

lemma wavHeader_dataSize (L : ℕ) :
    getUint32 (wavHeader L) 40 = L * 2 % 4294967296 := by
  simp only [wavHeader, writeString, setUint32, setUint16, setUint8, getUint32, getUint8]
  norm_num
  omega

lemma wavHeader_sampleRate (L : ℕ) : getUint32 (wavHeader L) 24 = 48000 := by
  simp [wavHeader, writeString, setUint32, setUint16, setUint8, getUint32, getUint8]

lemma wavHeader_byteRate (L : ℕ) : getUint32 (wavHeader L) 28 = 96000 := by
  simp [wavHeader, writeString, setUint32, setUint16, setUint8, getUint32, getUint8]

lemma wavHeader_numChannels (L : ℕ) : getUint16 (wavHeader L) 22 = 1 := by
  simp [wavHeader, writeString, setUint32, setUint16, setUint8, getUint16, getUint8]

lemma wavHeader_blockAlign (L : ℕ) : getUint16 (wavHeader L) 32 = 2 := by
  simp [wavHeader, writeString, setUint32, setUint16, setUint8, getUint16, getUint8]

lemma wavHeader_bitsPerSample (L : ℕ) : getUint16 (wavHeader L) 34 = 16 := by
  simp [wavHeader, writeString, setUint32, setUint16, setUint8, getUint16, getUint8]

/-- The PCM loop only writes at offsets `≥ 44`, so it leaves the header
bytes untouched. -/
lemma pcmWrite_apply_lt (view : ByteArr) (rand : ℕ → ℕ × ℕ) (samples : List ℝ)
    (i : ℕ) (hi : i < 44) : pcmWrite view rand samples i = view i := by
  rw [pcmWrite]
  generalize List.range samples.length = l
  induction l generalizing view with
  | nil => rfl
  | cons a t ih =>
    rw [List.foldl_cons, ih]
    simp only [setInt16, setUint16, setUint8]
    rw [if_neg (by omega), if_neg (by omega)]

lemma pcmWrite_getUint16_lt (view : ByteArr) (rand : ℕ → ℕ × ℕ)
    (samples : List ℝ) (i : ℕ) (hi : i + 1 < 44) :
    getUint16 (pcmWrite view rand samples) i = getUint16 view i := by
  unfold getUint16 getUint8
  rw [pcmWrite_apply_lt _ _ _ _ (by omega), pcmWrite_apply_lt _ _ _ _ (by omega)]

lemma pcmWrite_getUint32_lt (view : ByteArr) (rand : ℕ → ℕ × ℕ)
    (samples : List ℝ) (i : ℕ) (hi : i + 3 < 44) :
    getUint32 (pcmWrite view rand samples) i = getUint32 view i := by
  unfold getUint32 getUint8
  rw [pcmWrite_apply_lt _ _ _ _ (by omega), pcmWrite_apply_lt _ _ _ _ (by omega),
    pcmWrite_apply_lt _ _ _ _ (by omega), pcmWrite_apply_lt _ _ _ _ (by omega)]

/-! ### Helper lemmas about normalization -/

/-- The hyperbolic tangent stays strictly inside `(-1, 1)`: this is the soft
defining property of the soft limiter. -/
lemma abs_tanh_lt_one (x : ℝ) : |Real.tanh x| < 1 := by
  rw [Real.tanh_eq_sinh_div_cosh, abs_div, abs_of_pos (Real.cosh_pos x),
    div_lt_one (Real.cosh_pos x)]
  nlinarith [Real.cosh_sq x, sq_abs (Real.sinh x), abs_nonneg (Real.sinh x),
    Real.cosh_pos x]

lemma list_sum_zero_of_nonneg {l : List ℝ} (hnn : ∀ x ∈ l, 0 ≤ x)
    (hsum : l.sum = 0) : ∀ x ∈ l, x = 0 := by
  induction l with
  | nil => simp
  | cons a t ih =>
    have hts : 0 ≤ t.sum := List.sum_nonneg fun x hx => hnn x (List.mem_cons_of_mem a hx)
    have ha : 0 ≤ a := hnn a (List.mem_cons_self a t)
    have hsum' : a + t.sum = 0 := by simpa using hsum
    intro x hx
    rcases List.mem_cons.mp hx with rfl | hx
    · linarith
    · exact ih (fun y hy => hnn y (List.mem_cons_of_mem a hy)) (by linarith) x hx

/-- A signal with zero RMS is all-zero. -/
lemma all_zero_of_rms_eq_zero {audioData : List ℝ}
    (hne : audioData.length ≠ 0) (h : rmsOf audioData = 0) :
    ∀ x ∈ audioData, x = 0 := by
  have hnn : ∀ y ∈ audioData.map fun x => x * x, 0 ≤ y := by
    intro y hy
    rcases List.mem_map.mp hy with ⟨x, _, rfl⟩
    exact mul_self_nonneg x
  have hsq : (audioData.map fun x => x * x).sum = 0 := by
    have hlen : (0 : ℝ) < audioData.length := by
      exact_mod_cast Nat.pos_of_ne_zero hne
    have hdiv : (audioData.map fun x => x * x).sum / audioData.length ≤ 0 :=
      (Real.sqrt_eq_zero' ).mp h
    have hnns : 0 ≤ (audioData.map fun x => x * x).sum := List.sum_nonneg hnn
    rcases lt_or_eq_of_le hnns with hpos | heq
    · exact absurd (div_pos hpos hlen) (by linarith)
    · exact heq.symm
  intro x hx
  have : x * x = 0 :=
    list_sum_zero_of_nonneg hnn hsq (x * x) (List.mem_map.mpr ⟨x, hx, rfl⟩)
  exact mul_self_eq_zero.mp this

/-! ### Shape lemmas for the three stages -/

lemma validateAudioData_loggerDiag (audioData : List ℝ) (stage : String) :
    validateAudioData loggerDiag audioData stage = Except.ok () := rfl

/-- Inversion: a successful `normalizeAudio` run is either the silent
passthrough or the tanh-limited rescaling, and the input was non-empty. -/
lemma normalizeAudio_ok_inv {diag : Diag} {audioData out : List ℝ} {targetRMS : ℝ}
    (h : normalizeAudio diag audioData targetRMS = Except.ok out) :
    audioData.length ≠ 0 ∧
      ((rmsOf audioData = 0 ∧ out = audioData) ∨
        (rmsOf audioData ≠ 0 ∧
          out = audioData.map fun x =>
            Real.tanh (x * (targetRMS / rmsOf audioData) * (9 / 10)))) := by
  simp only [normalizeAudio] at h
  split at h
  · exact absurd h (by simp)
  · split at h
    · exact absurd h (by simp)
    · next hne =>
      refine ⟨hne, ?_⟩
      split at h
      · next hz => exact Or.inl ⟨hz, (Except.ok.injEq _ _).mp h.symm⟩
      · next hz =>
        split at h
        · exact absurd h (by simp)
        · exact Or.inr ⟨hz, (Except.ok.injEq _ _).mp h.symm⟩

/-- Under the never-throwing logger of the repository, `normalizeAudio` succeeds
on every non-empty signal and preserves the length. -/
lemma normalizeAudio_loggerDiag_ok (audioData : List ℝ) (targetRMS : ℝ)
    (hne : audioData.length ≠ 0) :
    ∃ out, normalizeAudio loggerDiag audioData targetRMS = Except.ok out ∧
      out.length = audioData.length := by
  have hne' : audioData ≠ [] := by
    intro hcon
    exact hne (by simp [hcon])
  by_cases hz : rmsOf audioData = 0
  · refine ⟨audioData, ?_, rfl⟩
    simp [normalizeAudio, validateAudioData, loggerDiag, hne', hz]
  · refine ⟨audioData.map fun x =>
      Real.tanh (x * (targetRMS / rmsOf audioData) * (9 / 10)), ?_, by simp⟩
    simp [normalizeAudio, validateAudioData, loggerDiag, hne', hz]

/-- Inversion: a successful `upsampleAudio` run produced exactly the list of
interpolated samples, and the input was non-empty. -/
lemma upsampleAudio_ok_inv {diag : Diag} {audioData out : List ℝ}
    {inputSampleRate outputSampleRate : ℚ}
    (h : upsampleAudio diag audioData inputSampleRate outputSampleRate = Except.ok out) :
    audioData.length ≠ 0 ∧
      out = (List.range
          ((⌊(audioData.length : ℚ) * (outputSampleRate / inputSampleRate)⌋).toNat)).map
        (upsampleAt audioData (outputSampleRate / inputSampleRate)) := by
  simp only [upsampleAudio] at h
  split at h
  · exact absurd h (by simp)
  · split at h
    · exact absurd h (by simp)
    · next hne =>
      refine ⟨hne, ?_⟩
      split at h
      · exact absurd h (by simp)
      · exact ((Except.ok.injEq _ _).mp h).symm

/-- Under the never-throwing logger of the repository, `upsampleAudio` succeeds on
every non-empty signal and returns the interpolated list. -/
lemma upsampleAudio_loggerDiag_eq (audioData : List ℝ)
    (inputSampleRate outputSampleRate : ℚ) (hne : audioData.length ≠ 0) :
    upsampleAudio loggerDiag audioData inputSampleRate outputSampleRate =
      Except.ok ((List.range
          ((⌊(audioData.length : ℚ) * (outputSampleRate / inputSampleRate)⌋).toNat)).map
        (upsampleAt audioData (outputSampleRate / inputSampleRate))) := by
  have hne' : audioData ≠ [] := by
    intro hcon
    exact hne (by simp [hcon])
  simp [upsampleAudio, validateAudioData, loggerDiag, hne']

/-- Inversion: a successful `createAudioBlob` run had a non-empty input and a
positive sample rate. -/
lemma createAudioBlob_ok_inv {diag : Diag} {rand : ℕ → ℕ × ℕ}
    {audioData : List ℝ} {sampleRate : ℚ} {buf : WavBuffer}
    (h : createAudioBlob diag rand audioData sampleRate = Except.ok buf) :
    audioData.length ≠ 0 ∧ 0 < sampleRate := by
  rw [createAudioBlob] at h
  split at h
  · exact absurd h (by simp)
  · split at h
    · exact absurd h (by simp)
    · next hne hr => exact ⟨hne, lt_of_not_le hr⟩

/-- Under the logger of the repository, `createAudioBlob` succeeds on every
non-empty signal with positive rate, and its result is the WAV header for
`wavDataLen` samples followed by the PCM payload. -/
lemma createAudioBlob_loggerDiag_eq (rand : ℕ → ℕ × ℕ) (audioData : List ℝ)
    (sampleRate : ℚ) (hne : audioData.length ≠ 0) (hr : 0 < sampleRate) :
    ∃ up : List ℝ, up.length = wavDataLen audioData.length sampleRate ∧
      createAudioBlob loggerDiag rand audioData sampleRate =
        Except.ok ⟨44 + up.length * 2, pcmWrite (wavHeader up.length) rand up⟩ := by
  obtain ⟨nd, hnd, hlen⟩ := normalizeAudio_loggerDiag_ok audioData (3 / 20) hne
  have hnd_ne : nd.length ≠ 0 := by rw [hlen]; exact hne
  refine ⟨(List.range ((⌊(nd.length : ℚ) * (48000 / sampleRate)⌋).toNat)).map
    (upsampleAt nd (48000 / sampleRate)), ?_, ?_⟩
  · simp [wavDataLen, hlen]
  · rw [createAudioBlob, if_neg hne, if_neg (not_le.mpr hr)]
    simp only [hnd, upsampleAudio_loggerDiag_eq nd sampleRate 48000 hnd_ne,
      if_neg (wavHeader_check_ok _)]

/-! ### Concrete evaluations, used to instantiate the claim theorems -/

lemma rmsOf_single_zero : rmsOf [(0 : ℝ)] = 0 := by
  simp [rmsOf]

lemma normalizeAudio_zero_eval :
    normalizeAudio loggerDiag [(0 : ℝ)] (3 / 20) = Except.ok [(0 : ℝ)] := by
  simp [normalizeAudio, validateAudioData, loggerDiag, rmsOf_single_zero]

lemma getS_zero_list (l : List ℝ) (hz : ∀ x ∈ l, x = 0) (j : ℤ) :
    getS l j = 0 := by
  unfold getS
  split
  · next hj =>
    have hlt : j.toNat < l.length := by omega
    rw [List.getD_eq_getElem l 0 hlt]
    exact hz _ (List.getElem_mem hlt)
  · rfl

lemma catmullRom_zero (fraction : ℚ) : catmullRom 0 0 0 0 fraction = 0 := by
  simp [catmullRom]

lemma upsampleAt_zero_list (l : List ℝ) (hz : ∀ x ∈ l, x = 0) ( ratio : ℚ)
    (i : ℕ) : upsampleAt l ratio i = 0 := by
  simp only [upsampleAt]
  rw [getS_zero_list l hz, getS_zero_list l hz, getS_zero_list l hz,
    getS_zero_list l hz, catmullRom_zero]

lemma upsampleAt_zero_single ( ratio : ℚ) (i : ℕ) :
    upsampleAt [(0 : ℝ)] ratio i = 0 :=
  upsampleAt_zero_list [(0 : ℝ)] (by intro x hx; simpa using hx) _ i

lemma catmullRom_fraction_zero (y0 y1 y2 y3 : ℝ) :
    catmullRom y0 y1 y2 y3 0 = y1 := by
  simp [catmullRom]

/-- At ratio 1 every output sample is the input sample at the same index. -/
lemma upsampleAt_ratio_one (audioData : List ℝ) (i : ℕ)
    (hi : i < audioData.length) :
    upsampleAt audioData 1 i = audioData.getD i 0 := by
  have h1 : ((i : ℚ)) / 1 = ((i : ℤ) : ℚ) := by push_cast; ring
  simp only [upsampleAt, h1, Int.floor_intCast, sub_self, catmullRom_fraction_zero]
  unfold getS
  rw [if_pos ⟨Int.ofNat_nonneg i, by exact_mod_cast hi⟩]
  simp

lemma upsampleAudio_eval_id :
    upsampleAudio loggerDiag [(0 : ℝ)] 48000 48000 = Except.ok [(0 : ℝ)] := by
  rw [upsampleAudio_loggerDiag_eq _ _ _ (by simp)]
  norm_num
  simp [show List.range 1 = [0] from by decide, upsampleAt_zero_single]

lemma upsampleAudio_eval_double :
    upsampleAudio loggerDiag [(0 : ℝ)] 24000 48000 = Except.ok [(0 : ℝ), 0] := by
  rw [upsampleAudio_loggerDiag_eq _ _ _ (by simp)]
  norm_num
  simp [show Int.toNat 2 = 2 from rfl, show List.range 2 = [0, 1] from by decide,
    upsampleAt_zero_single]

lemma upsampleAudio_eval_down :
    upsampleAudio loggerDiag [(0 : ℝ)] 96000 48000 = Except.ok [] := by
  rw [upsampleAudio_loggerDiag_eq _ _ _ (by simp)]
  norm_num

lemma upsampleAudio_eval_five_fourths :
    upsampleAudio loggerDiag [(0 : ℝ), 0, 0] 4 5 = Except.ok [(0 : ℝ), 0, 0] := by
  rw [upsampleAudio_loggerDiag_eq _ _ _ (by simp)]
  norm_num
  simp [show Int.toNat 3 = 3 from rfl, show List.range 3 = [0, 1, 2] from by decide,
    upsampleAt_zero_list [(0 : ℝ), 0, 0] (by intro x hx; simpa using (by simpa using hx))]

lemma createAudioBlob_eval_48 :
    createAudioBlob loggerDiag zrand [(0 : ℝ)] 48000 =
      Except.ok ⟨46, pcmWrite (wavHeader 1) zrand [(0 : ℝ)]⟩ := by
  rw [createAudioBlob, if_neg (by simp), if_neg (by norm_num)]
  simp only [normalizeAudio_zero_eval, upsampleAudio_eval_id,
    List.length_singleton, if_neg (wavHeader_check_ok 1)]

lemma createAudioBlob_eval_96 :
    createAudioBlob loggerDiag zrand [(0 : ℝ)] 96000 =
      Except.ok ⟨44, pcmWrite (wavHeader 0) zrand []⟩ := by
  rw [createAudioBlob, if_neg (by simp), if_neg (by norm_num)]
  simp only [normalizeAudio_zero_eval, upsampleAudio_eval_down,
    List.length_nil, if_neg (wavHeader_check_ok 0)]

/-! ### Claim theorems -/

/-- C1: for every input signal that `normalizeAudio` accepts, every sample of
its output has absolute value strictly less than `1.0` — the tanh soft
limiter never reaches the boundary. -/
theorem normalizeAudio_output_abs_lt_one (diag : Diag) (audioData out : List ℝ)
    (targetRMS : ℝ) (h : normalizeAudio diag audioData targetRMS = Except.ok out) :
    ∀ x ∈ out, |x| < 1 := by
  obtain ⟨hne, hcase⟩ := normalizeAudio_ok_inv h
  rcases hcase with ⟨hz, rfl⟩ | ⟨hz, rfl⟩
  · intro x hx
    rw [all_zero_of_rms_eq_zero hne hz x hx]
    norm_num
  · intro x hx
    rcases List.mem_map.mp hx with ⟨y, _, rfl⟩
    exact abs_tanh_lt_one _

/-- Witness for C1 at the concrete signal `[0]`. -/
theorem normalizeAudio_output_abs_lt_one_witness :
    normalizeAudio loggerDiag [(0 : ℝ)] (3 / 20) = Except.ok [(0 : ℝ)] ∧
      |(0 : ℝ)| < 1 :=
  ⟨normalizeAudio_zero_eval,
    normalizeAudio_output_abs_lt_one loggerDiag [(0 : ℝ)] [(0 : ℝ)] (3 / 20)
      normalizeAudio_zero_eval 0 (by simp)⟩

/-- C5: on a non-empty signal of zero RMS (in particular an all-zero signal),
`normalizeAudio` raises no error and returns the input unchanged — an
all-zero output of the same length. -/
theorem normalizeAudio_silent_passthrough (audioData : List ℝ) (targetRMS : ℝ)
    (hne : audioData.length ≠ 0) (hz : rmsOf audioData = 0) :
    normalizeAudio loggerDiag audioData targetRMS = Except.ok audioData ∧
      ∀ x ∈ audioData, x = 0 := by
  constructor
  · have hne' : audioData ≠ [] := fun hcon => hne (by simp [hcon])
    simp [normalizeAudio, validateAudioData, loggerDiag, hne', hz]
  · exact all_zero_of_rms_eq_zero hne hz

/-- Witness for C5 at the concrete signal `[0]`. -/
theorem normalizeAudio_silent_passthrough_witness :
    ([(0 : ℝ)].length ≠ 0 ∧ rmsOf [(0 : ℝ)] = 0) ∧
      normalizeAudio loggerDiag [(0 : ℝ)] (3 / 20) = Except.ok [(0 : ℝ)] ∧
      ∀ x ∈ [(0 : ℝ)], x = 0 :=
  ⟨⟨by simp, rmsOf_single_zero⟩,
    normalizeAudio_silent_passthrough [(0 : ℝ)] (3 / 20) (by simp) rmsOf_single_zero⟩

/-- C6: each of the three stages raises its empty-input error on a
zero-length signal; the call produces that error and no output. -/
theorem empty_input_is_fatal :
    (∀ targetRMS : ℝ, normalizeAudio loggerDiag [] targetRMS =
        Except.error "Cannot normalize empty audio data") ∧
    (∀ inputSampleRate outputSampleRate : ℚ,
        upsampleAudio loggerDiag [] inputSampleRate outputSampleRate =
          Except.error "Cannot upsample empty audio data") ∧
    (∀ (rand : ℕ → ℕ × ℕ) (sampleRate : ℚ),
        createAudioBlob loggerDiag rand [] sampleRate =
          Except.error "Cannot create blob from empty audio data") :=
  ⟨fun _ => rfl, fun _ _ => rfl, fun _ _ => rfl⟩

/-- C4: the output length of the upsampler is exactly
`floor(inputLength * outputRate / inputRate)`; for 24000 to 48000 it is
exactly twice the input length. -/
theorem upsampleAudio_output_length (diag : Diag) (audioData out : List ℝ)
    (inputSampleRate outputSampleRate : ℚ)
    (hi : 0 < inputSampleRate) (ho : 0 < outputSampleRate)
    (h : upsampleAudio diag audioData inputSampleRate outputSampleRate = Except.ok out) :
    out.length =
        (⌊(audioData.length : ℚ) * (outputSampleRate / inputSampleRate)⌋).toNat ∧
      (inputSampleRate = 24000 → outputSampleRate = 48000 →
        out.length = 2 * audioData.length) := by
  obtain ⟨hne, rfl⟩ := upsampleAudio_ok_inv h
  refine ⟨by simp, ?_⟩
  rintro rfl rfl
  simp only [List.length_map, List.length_range]
  have hq : ((audioData.length : ℚ)) * ((48000 : ℚ) / 24000) =
      ((2 * audioData.length : ℕ) : ℚ) := by
    push_cast
    ring
  rw [hq, Int.floor_natCast]
  exact Int.toNat_natCast _

/-- Witness for C4 at the concrete signal `[0]` with rates 24000 and 48000. -/
theorem upsampleAudio_output_length_witness :
    ((0 : ℚ) < 24000 ∧ (0 : ℚ) < 48000) ∧
      ([(0 : ℝ), 0].length =
          (⌊(([(0 : ℝ)].length : ℚ)) * ((48000 : ℚ) / 24000)⌋).toNat ∧
        ((24000 : ℚ) = 24000 → (48000 : ℚ) = 48000 →
          [(0 : ℝ), 0].length = 2 * [(0 : ℝ)].length)) :=
  ⟨⟨by norm_num, by norm_num⟩,
    upsampleAudio_output_length loggerDiag [(0 : ℝ)] [(0 : ℝ), 0] 24000 48000
      (by norm_num) (by norm_num) upsampleAudio_eval_double⟩

/-- C8 counterexample: for the length-3 signal with rates 4 and 5 the rate
ratio is `5/4 > 1`, yet the output length is `floor(3 * 5/4) = 3`, not
strictly greater than the input length. -/
theorem upsample_ratio_gt_one_cex :
    (1 : ℚ) < 5 / 4 ∧
      upsampleAudio loggerDiag [(0 : ℝ), 0, 0] 4 5 = Except.ok [(0 : ℝ), 0, 0] ∧
      ¬ ([(0 : ℝ), 0, 0].length < [(0 : ℝ), 0, 0].length) :=
  ⟨by norm_num, upsampleAudio_eval_five_fourths, by simp⟩

/-- C8 (amended): a rate ratio greater than 1 guarantees the output is at
least as long as the input (strict growth can fail, e.g. length 3 at ratio
5/4). -/
theorem upsample_ratio_gt_one_ge (diag : Diag) (audioData out : List ℝ)
    (inputSampleRate outputSampleRate : ℚ)
    (h : upsampleAudio diag audioData inputSampleRate outputSampleRate = Except.ok out)
    (hratio : 1 < outputSampleRate / inputSampleRate) :
    audioData.length ≤ out.length := by
  obtain ⟨hne, rfl⟩ := upsampleAudio_ok_inv h
  simp only [List.length_map, List.length_range]
  have h1 : ((audioData.length : ℚ)) ≤
      (audioData.length : ℚ) * (outputSampleRate / inputSampleRate) :=
    le_mul_of_one_le_right (by positivity) hratio.le
  have h2 : (audioData.length : ℤ) ≤
      ⌊(audioData.length : ℚ) * (outputSampleRate / inputSampleRate)⌋ := by
    rw [Int.le_floor]
    exact_mod_cast h1
  omega

/-- Witness for the amended C8 at the concrete signal `[0]` with rates 24000
and 48000. -/
theorem upsample_ratio_gt_one_ge_witness :
    (1 : ℚ) < 48000 / 24000 ∧ [(0 : ℝ)].length ≤ [(0 : ℝ), 0].length :=
  ⟨by norm_num,
    upsample_ratio_gt_one_ge loggerDiag [(0 : ℝ)] [(0 : ℝ), 0] 24000 48000
      upsampleAudio_eval_double (by norm_num)⟩

/-- C9: with equal positive input and output rates the upsampler is the
identity: the ratio is 1, every source index is integral with zero fraction,
and the output equals the input sample for sample. -/
theorem upsample_equal_rates_identity (diag : Diag) (audioData out : List ℝ)
    (rate : ℚ) (hr : 0 < rate)
    (h : upsampleAudio diag audioData rate rate = Except.ok out) :
    out = audioData := by
  obtain ⟨hne, rfl⟩ := upsampleAudio_ok_inv h
  have hru : rate / rate = 1 := div_self (ne_of_gt hr)
  rw [hru]
  have hlen : (⌊(audioData.length : ℚ) * 1⌋).toNat = audioData.length := by
    rw [mul_one, Int.floor_natCast]
    exact Int.toNat_natCast _
  rw [hlen]
  apply List.ext_getElem
  · simp
  · intro i h1 h2
    have hi : i < audioData.length := h2
    simp only [List.getElem_map, List.getElem_range]
    rw [upsampleAt_ratio_one audioData i hi, List.getD_eq_getElem audioData 0 hi]

/-- Witness for C9 at the concrete signal `[0]` with rate 48000. -/
theorem upsample_equal_rates_identity_witness :
    (0 : ℚ) < 48000 ∧ [(0 : ℝ)] = [(0 : ℝ)] :=
  ⟨by norm_num,
    upsample_equal_rates_identity loggerDiag [(0 : ℝ)] [(0 : ℝ)] 48000
      (by norm_num) upsampleAudio_eval_id⟩

/-- C7 counterexample: with a diagnostics recorder that throws, the error of
the recorder aborts `normalizeAudio` and becomes its result; on an empty
input it even replaces the own empty-input error of the stage, because the pre-stage
diagnostics run before the emptiness check. -/
theorem diag_failure_aborts_cex :
    normalizeAudio diagFail [(1 : ℝ)] (3 / 20) = Except.error "diagnostics failure" ∧
      normalizeAudio diagFail [] (3 / 20) = Except.error "diagnostics failure" :=
  ⟨rfl, rfl⟩

/-- C7 (amended): an error thrown by the diagnostics recorder is not caught:
it propagates out of `normalizeAudio` and `upsampleAudio` as the result of
the call, aborting the stage. -/
theorem diag_error_propagates :
    (∀ (diag : Diag) (audioData : List ℝ) (targetRMS : ℝ) (e : String),
        diag "pre-normalization" (statsOf audioData) = Except.error e →
        normalizeAudio diag audioData targetRMS = Except.error e) ∧
    (∀ (diag : Diag) (audioData : List ℝ)
        (inputSampleRate outputSampleRate : ℚ) (e : String),
        diag "pre-upsampling" (statsOf audioData) = Except.error e →
        upsampleAudio diag audioData inputSampleRate outputSampleRate =
          Except.error e) := by
  constructor
  · intro diag audioData targetRMS e he
    rw [normalizeAudio, validateAudioData, he]
  · intro diag audioData inputSampleRate outputSampleRate e he
    rw [upsampleAudio, validateAudioData, he]

/-- Witness for the amended C7 with the always-throwing recorder. -/
theorem diag_error_propagates_witness :
    normalizeAudio diagFail [(0 : ℝ)] (3 / 20) = Except.error "diagnostics failure" ∧
      upsampleAudio diagFail [(0 : ℝ)] 24000 48000 =
        Except.error "diagnostics failure" :=
  ⟨diag_error_propagates.1 diagFail [(0 : ℝ)] (3 / 20) "diagnostics failure" rfl,
    diag_error_propagates.2 diagFail [(0 : ℝ)] 24000 48000 "diagnostics failure" rfl⟩

/-- C2 counterexample: a buffer whose RIFF and WAVE markers (and all numeric
fields) are correct but whose "data" marker is corrupted.  The spec-side
check reports a mismatch, but the check in the code does not raise. -/
theorem header_check_iff_spec_cex :
    ¬ (wavHeaderCheckFails corruptDataView ↔ specHeaderMismatch 0 corruptDataView) := by
  decide

/-- C2 (amended): after writing the header the encoder re-reads the RIFF,
WAVE and fmt markers and the numeric fields, but the fatal
header-construction error is raised if and only if the RIFF or WAVE marker
mismatches — and on a header the encoder itself wrote it is never raised. -/
theorem header_check_reads_and_verifies :
    (∀ view : ByteArr, wavHeaderCheckFails view ↔
        ((headerValidation view).riffMarker ≠ riffBytes ∨
          (headerValidation view).waveMarker ≠ waveBytes)) ∧
    (∀ (rand : ℕ → ℕ × ℕ) (audioData : List ℝ) (sampleRate : ℚ),
        createAudioBlob loggerDiag rand audioData sampleRate ≠
          Except.error "Invalid WAV header construction") := by
  constructor
  · intro view
    exact Iff.rfl
  · intro rand audioData sampleRate hcon
    by_cases hne : audioData.length = 0
    · rw [createAudioBlob, if_pos hne] at hcon
      exact absurd (Except.error.inj hcon) (by decide)
    · by_cases hr : sampleRate ≤ 0
      · rw [createAudioBlob, if_neg hne, if_pos hr] at hcon
        exact absurd (Except.error.inj hcon) (by decide)
      · obtain ⟨up, _, heq⟩ :=
          createAudioBlob_loggerDiag_eq rand audioData sampleRate hne (lt_of_not_le hr)
        rw [heq] at hcon
        exact absurd hcon (by simp)

/-- Witness for the amended C2 at a concrete header and a concrete encode. -/
theorem header_check_reads_and_verifies_witness :
    (wavHeaderCheckFails (wavHeader 5) ↔
        ((headerValidation (wavHeader 5)).riffMarker ≠ riffBytes ∨
          (headerValidation (wavHeader 5)).waveMarker ≠ waveBytes)) ∧
      createAudioBlob loggerDiag zrand [(0 : ℝ)] 48000 ≠
        Except.error "Invalid WAV header construction" :=
  ⟨header_check_reads_and_verifies.1 (wavHeader 5),
    header_check_reads_and_verifies.2 zrand [(0 : ℝ)] 48000⟩

/-- C3: a successful encode yields a buffer of exactly `44 + 2 * sampleCount`
bytes whose header sizes match the payload: the uint32 at offset 4 is
`36 + 2 * sampleCount`, the uint32 at offset 40 is `2 * sampleCount`, with
channel count 1, block align 2 and 16 bits per sample (sampleCount being the
upsampled sample count, below the 32-bit size limit of the WAV format). -/
theorem createAudioBlob_container_sizes (rand : ℕ → ℕ × ℕ)
    (audioData : List ℝ) (sampleRate : ℚ) (buf : WavBuffer)
    (h : createAudioBlob loggerDiag rand audioData sampleRate = Except.ok buf)
    (hsmall : 36 + 2 * wavDataLen audioData.length sampleRate < 4294967296) :
    buf.size = 44 + 2 * wavDataLen audioData.length sampleRate ∧
      getUint32 buf.bytes 4 = 36 + 2 * wavDataLen audioData.length sampleRate ∧
      getUint32 buf.bytes 40 = 2 * wavDataLen audioData.length sampleRate ∧
      getUint16 buf.bytes 22 = 1 ∧
      getUint16 buf.bytes 32 = 2 ∧
      getUint16 buf.bytes 34 = 16 := by
  obtain ⟨hne, hr⟩ := createAudioBlob_ok_inv h
  obtain ⟨up, hlen, heq⟩ := createAudioBlob_loggerDiag_eq rand audioData sampleRate hne hr
  rw [heq] at h
  obtain rfl : buf = ⟨44 + up.length * 2, pcmWrite (wavHeader up.length) rand up⟩ :=
    ((Except.ok.injEq _ _).mp h).symm
  refine ⟨by simp [hlen]; ring, ?_, ?_, ?_, ?_, ?_⟩
  · rw [show (⟨44 + up.length * 2, pcmWrite (wavHeader up.length) rand up⟩ :
      WavBuffer).bytes = pcmWrite (wavHeader up.length) rand up from rfl,
      pcmWrite_getUint32_lt _ _ _ _ (by omega), wavHeader_fileSize, hlen]
    omega
  · rw [show (⟨44 + up.length * 2, pcmWrite (wavHeader up.length) rand up⟩ :
      WavBuffer).bytes = pcmWrite (wavHeader up.length) rand up from rfl,
      pcmWrite_getUint32_lt _ _ _ _ (by omega), wavHeader_dataSize, hlen]
    omega
  · rw [show (⟨44 + up.length * 2, pcmWrite (wavHeader up.length) rand up⟩ :
      WavBuffer).bytes = pcmWrite (wavHeader up.length) rand up from rfl,
      pcmWrite_getUint16_lt _ _ _ _ (by omega), wavHeader_numChannels]
  · rw [show (⟨44 + up.length * 2, pcmWrite (wavHeader up.length) rand up⟩ :
      WavBuffer).bytes = pcmWrite (wavHeader up.length) rand up from rfl,
      pcmWrite_getUint16_lt _ _ _ _ (by omega), wavHeader_blockAlign]
  · rw [show (⟨44 + up.length * 2, pcmWrite (wavHeader up.length) rand up⟩ :
      WavBuffer).bytes = pcmWrite (wavHeader up.length) rand up from rfl,
      pcmWrite_getUint16_lt _ _ _ _ (by omega), wavHeader_bitsPerSample]

/-- Witness for C3 at the concrete signal `[0]` with rate 48000. -/
theorem createAudioBlob_container_sizes_witness :
    (WavBuffer.mk 46 (pcmWrite (wavHeader 1) zrand [(0 : ℝ)])).size =
        44 + 2 * wavDataLen [(0 : ℝ)].length 48000 ∧
      getUint32 (WavBuffer.mk 46 (pcmWrite (wavHeader 1) zrand [(0 : ℝ)])).bytes 4 =
        36 + 2 * wavDataLen [(0 : ℝ)].length 48000 ∧
      getUint32 (WavBuffer.mk 46 (pcmWrite (wavHeader 1) zrand [(0 : ℝ)])).bytes 40 =
        2 * wavDataLen [(0 : ℝ)].length 48000 ∧
      getUint16 (WavBuffer.mk 46 (pcmWrite (wavHeader 1) zrand [(0 : ℝ)])).bytes 22 = 1 ∧
      getUint16 (WavBuffer.mk 46 (pcmWrite (wavHeader 1) zrand [(0 : ℝ)])).bytes 32 = 2 ∧
      getUint16 (WavBuffer.mk 46 (pcmWrite (wavHeader 1) zrand [(0 : ℝ)])).bytes 34 = 16 :=
  createAudioBlob_container_sizes zrand [(0 : ℝ)] 48000
    ⟨46, pcmWrite (wavHeader 1) zrand [(0 : ℝ)]⟩ createAudioBlob_eval_48
    (by norm_num [wavDataLen])

/-- C10: the encoder always stamps output rate 48000 and byte rate 96000 in
the header regardless of the input rate; the payload holds
`floor(inputLength * 48000 / sampleRate)` samples; and an input rate above
48000 downsamples (shorter output) rather than raising an error. -/
theorem createAudioBlob_output_rate_fixed :
    (∀ (rand : ℕ → ℕ × ℕ) (audioData : List ℝ) (sampleRate : ℚ) (buf : WavBuffer),
        createAudioBlob loggerDiag rand audioData sampleRate = Except.ok buf →
        getUint32 buf.bytes 24 = 48000 ∧ getUint32 buf.bytes 28 = 96000 ∧
          buf.size = 44 + 2 * wavDataLen audioData.length sampleRate) ∧
    (∀ (rand : ℕ → ℕ × ℕ) (audioData : List ℝ) (sampleRate : ℚ),
        audioData.length ≠ 0 → 48000 < sampleRate →
        ∃ buf, createAudioBlob loggerDiag rand audioData sampleRate = Except.ok buf ∧
          wavDataLen audioData.length sampleRate < audioData.length) := by
  constructor
  · intro rand audioData sampleRate buf h
    obtain ⟨hne, hr⟩ := createAudioBlob_ok_inv h
    obtain ⟨up, hlen, heq⟩ := createAudioBlob_loggerDiag_eq rand audioData sampleRate hne hr
    rw [heq] at h
    obtain rfl : buf = ⟨44 + up.length * 2, pcmWrite (wavHeader up.length) rand up⟩ :=
      ((Except.ok.injEq _ _).mp h).symm
    refine ⟨?_, ?_, by simp [hlen]; ring⟩
    · rw [show (⟨44 + up.length * 2, pcmWrite (wavHeader up.length) rand up⟩ :
        WavBuffer).bytes = pcmWrite (wavHeader up.length) rand up from rfl,
        pcmWrite_getUint32_lt _ _ _ _ (by omega), wavHeader_sampleRate]
    · rw [show (⟨44 + up.length * 2, pcmWrite (wavHeader up.length) rand up⟩ :
        WavBuffer).bytes = pcmWrite (wavHeader up.length) rand up from rfl,
        pcmWrite_getUint32_lt _ _ _ _ (by omega), wavHeader_byteRate]
  · intro rand audioData sampleRate hne hrate
    have hr : (0 : ℚ) < sampleRate := lt_trans (by norm_num) hrate
    obtain ⟨up, hlen, heq⟩ := createAudioBlob_loggerDiag_eq rand audioData sampleRate hne hr
    refine ⟨_, heq, ?_⟩
    have hq : (audioData.length : ℚ) * (48000 / sampleRate) < (audioData.length : ℚ) := by
      have hlt : (48000 : ℚ) / sampleRate < 1 := (div_lt_one hr).mpr hrate
      have hpos : (0 : ℚ) < (audioData.length : ℚ) := by
        exact_mod_cast Nat.pos_of_ne_zero hne
      calc (audioData.length : ℚ) * (48000 / sampleRate)
          < (audioData.length : ℚ) * 1 := by
            exact mul_lt_mul_of_pos_left hlt hpos
        _ = (audioData.length : ℚ) := mul_one _
    have hfl : ⌊(audioData.length : ℚ) * (48000 / sampleRate)⌋ <
        (audioData.length : ℤ) := by
      rw [Int.floor_lt]
      exact_mod_cast hq
    unfold wavDataLen
    omega

/-- Witness for C10: a concrete encode at the native rate and a concrete
downsampling encode at 96000. -/
theorem createAudioBlob_output_rate_fixed_witness :
    (getUint32 (WavBuffer.mk 46 (pcmWrite (wavHeader 1) zrand [(0 : ℝ)])).bytes 24 =
          48000 ∧
        getUint32 (WavBuffer.mk 46 (pcmWrite (wavHeader 1) zrand [(0 : ℝ)])).bytes 28 =
          96000 ∧
        (WavBuffer.mk 46 (pcmWrite (wavHeader 1) zrand [(0 : ℝ)])).size =
          44 + 2 * wavDataLen [(0 : ℝ)].length 48000) ∧
      ∃ buf, createAudioBlob loggerDiag zrand [(0 : ℝ)] 96000 = Except.ok buf ∧
        wavDataLen [(0 : ℝ)].length 96000 < [(0 : ℝ)].length :=
  ⟨createAudioBlob_output_rate_fixed.1 zrand [(0 : ℝ)] 48000
      ⟨46, pcmWrite (wavHeader 1) zrand [(0 : ℝ)]⟩ createAudioBlob_eval_48,
    createAudioBlob_output_rate_fixed.2 zrand [(0 : ℝ)] 96000 (by simp) (by norm_num)⟩

end AudioUtils
